import Mathlib

/-!
Shallow embedding of the `metric_collector_aws` repository
(`src/send_metrics.py`, `src/config.py`, `src/constants.py`).

The program is a one-shot run: it reads a cached credential file, checks
expiry against the current UTC instant, on miss federates against Cognito
(initiate_auth, get_id, get_credentials_for_identity), saves fresh
credentials as JSON and publishes one disk-usage metric to CloudWatch.

External collaborators (the `datetime`/`json` libraries, boto3, psutil,
the file system, the environment) are modelled by explicit state and
behaviour records; the repository's own functions are translated
line by line below and the run is a pure function of a `World`.
-/

namespace MetricCollector

/-- Model of a Python `datetime`: either timezone-aware (an absolute UTC
instant, in microseconds since the epoch, plus the display offset of its
`tzinfo`, in minutes) or naive (just a reading of its calendar fields,
encoded as the microsecond value those fields denote). Comparison of two
aware datetimes compares instants; comparing aware with naive raises
`TypeError` in Python. -/
inductive PyDt
  | aware (instant : Int) (offsetMin : Int)
  | naive (fieldsVal : Int)
deriving DecidableEq, Repr

/-- Model of a Python string as classified by `datetime.fromisoformat`:
`iso i o` is the canonical ISO-8601 rendering of the aware datetime with
UTC instant `i` and offset `o` minutes; `isoNaive v` the rendering of a
naive datetime; `plain s` any string `fromisoformat` rejects. Since an
aware datetime and its ISO string determine each other, this classification
is a faithful (bijective on well-formed data) model of string contents. -/
inductive PyStr
  | iso (instant : Int) (offsetMin : Int)
  | isoNaive (fieldsVal : Int)
  | plain (s : String)
deriving DecidableEq, Repr

/-- Python exception values that can flow through this program, with the
message material the claims rely on. `clientError` stands for any
exception raised inside a boto3 SDK call. -/
inductive PyError
  | fileNotFound
  | jsonDecodeError
  | keyError (key : String)
  | valueError (msg : String)
  | typeError (msg : String)
  | attributeError (msg : String)
  | clientError (msg : String)
  | cognitoCredentialError (msg : String)
  | saveCredentialsError (msg : String)
  | createCognitoclientError (msg : String)
  | sendMetricError (msg : String)
  | getDiskUsageError (msg : String)
deriving DecidableEq, Repr

/-- Model of a Python value as produced by `json.load` or returned by a
boto3 call: JSON objects, arrays, strings, integers, null, plus `jdt` for
the `datetime` objects boto3 places in its parsed responses (`json.load`
itself never yields a `jdt`). -/
inductive JVal
  | obj (fields : List (String × JVal))
  | arr (elems : List JVal)
  | jstr (s : PyStr)
  | jnum (n : Int)
  | jdt (d : PyDt)
  | jnull

/-- Python `str(e)` for the exceptions above, as embedded into wrapper
messages by the source's `except` blocks (quoting details elided). -/
def errStr : PyError → String
  | .fileNotFound => "No such file or directory"
  | .jsonDecodeError => "Expecting value"
  | .keyError k => k
  | .valueError m => m
  | .typeError m => m
  | .attributeError m => m
  | .clientError m => m
  | .cognitoCredentialError m => m
  | .saveCredentialsError m => m
  | .createCognitoclientError m => m
  | .sendMetricError m => m
  | .getDiskUsageError m => m

-- Constants from src/constants.py (the ones this program uses).
def KEY_USERNAME : String := "USERNAME"
def KEY_PASSWORD : String := "PASSWORD"
def KEY_METRIC_NAME : String := "MetricName"
def KEY_TIMESTAMP : String := "Timestamp"
def KEY_VALUE : String := "Value"
def KEY_UNIT : String := "Unit"
def KEY_AUTH_RESULTS : String := "AuthenticationResult"
def KEY_ID_TOKEN : String := "IdToken"
def KEY_IDENTITY_ID : String := "IdentityId"
def KEY_CREDENTIALS : String := "Credentials"
def UNIT_PERCENT : String := "Percent"
def COGNITO_PROVIDER : String := "cognito-idp.us-west-2.amazonaws.com/"
def DEFAULT_ENCODING : String := "utf-8"
def EXPIRATION : String := "Expiration"
def ACCESS_KEY_ID : String := "AccessKeyId"
def SECRET_KEY : String := "SecretKey"
def SESSION_TOKEN : String := "SessionToken"
def metric_name_disk_usage : String := "DiskUsage"

/-- Python dict subscript on an association list (`json.load` collapses
duplicate keys, so objects are modelled with their post-parse unique
keys and first match suffices). Missing key raises `KeyError`. -/
def getFromFields : List (String × JVal) → String → Except PyError JVal
  | [], k => .error (.keyError k)
  | (k0, v) :: rest, k => if k0 = k then .ok v else getFromFields rest k

/-- Python subscript `v[k]` with a string key: field lookup on a dict,
`TypeError` on any non-dict value. -/
def JVal.getItem : JVal → String → Except PyError JVal
  | .obj fields, k => getFromFields fields k
  | .arr _, _ => .error (.typeError "list indices must be integers or slices, not str")
  | .jstr _, _ => .error (.typeError "string indices must be integers")
  | .jnum _, _ => .error (.typeError "int object is not subscriptable")
  | .jdt _, _ => .error (.typeError "datetime object is not subscriptable")
  | .jnull, _ => .error (.typeError "NoneType object is not subscriptable")

/-- Model of `datetime.fromisoformat` applied to the value read from the
JSON dict: parses an ISO string into the datetime it denotes, raises
`ValueError` on a non-ISO string and `TypeError` on a non-string. -/
def fromisoformat : JVal → Except PyError PyDt
  | .jstr (.iso i o) => .ok (.aware i o)
  | .jstr (.isoNaive v) => .ok (.naive v)
  | .jstr (.plain s) => .error (.valueError ("Invalid isoformat string: " ++ s))
  | _ => .error (.typeError "fromisoformat: argument must be str")

/-- Model of `d.isoformat()`: the canonical ISO-8601 string of `d`,
written in the classified-string representation. -/
def isoformat : PyDt → PyStr
  | .aware i o => .iso i o
  | .naive v => .isoNaive v

/-- Model of `.astimezone(timezone.utc)` on the `Expiration` entry of a
boto3 response: an aware datetime is converted to the same instant with
UTC offset; a naive one is interpreted in the system's local timezone
(`localOffsetMin`); a non-datetime raises `AttributeError`. -/
def astimezoneUtc (v : JVal) (localOffsetMin : Int) : Except PyError PyDt :=
  match v with
  | .jdt (.aware i _) => .ok (.aware i 0)
  | .jdt (.naive f) => .ok (.aware (f - localOffsetMin * 60000000) 0)
  | _ => .error (.attributeError "astimezone")

/-- Python `<` between datetimes: instants for aware pairs, field values
for naive pairs, `TypeError` for a mixed pair — the comparison the source
performs in `load_credentials` (line 209). -/
def PyDt.pyLt : PyDt → PyDt → Except PyError Bool
  | .aware i _, .aware j _ => .ok (decide (i < j))
  | .naive a, .naive b => .ok (decide (a < b))
  | _, _ => .error (.typeError "cannot compare offset-naive and offset-aware datetimes")

mutual

/-- Whether `json.dump` accepts the value (`datetime` objects are not
JSON serializable and raise `TypeError`). -/
def serializable : JVal → Bool
  | .obj fields => serializableFields fields
  | .arr es => serializableList es
  | .jstr _ => true
  | .jnum _ => true
  | .jdt _ => false
  | .jnull => true

/-- Serializability of a field list, mutual helper of `serializable`. -/
def serializableFields : List (String × JVal) → Bool
  | [] => true
  | (_, v) :: rest => serializable v && serializableFields rest

/-- Serializability of an element list, mutual helper of `serializable`. -/
def serializableList : List JVal → Bool
  | [] => true
  | v :: rest => serializable v && serializableList rest

end

/-- State of the credential cache file (`constants.CREDENTIALS_FILE`):
absent (`open` raises `FileNotFoundError`), present with content that
`json.load` rejects (`JSONDecodeError`), or present with content whose
JSON parse is `v`. -/
inductive FileState
  | absent
  | invalid (raw : String)
  | valid (v : JVal)

/-- Combined model of `open(..., "r")` followed by `json.load(f)` as
performed at lines 205-206 of src/send_metrics.py. -/
def json_load : FileState → Except PyError JVal
  | .absent => .error .fileNotFound
  | .invalid _ => .error .jsonDecodeError
  | .valid v => .ok v

/-- Behaviour of the Cognito backends for one run: the response (or
raised SDK error message) of each of the three calls, plus the system
local timezone offset that `astimezone` would use on a naive datetime. -/
structure CognitoBackend where
  initAuthResp : Except String JVal
  getIdResp : Except String JVal
  getCredsResp : Except String JVal
  localOffsetMin : Int

/-- Behaviour of the cache-file write for one run: whether the OS write
succeeds, the content left behind when it fails mid-way, and the message
of the raised OS error. -/
structure WriteBehavior where
  ok : Bool
  residue : FileState
  errMsg : String

/-- Behaviour of the CloudWatch client for one run: `some msg` where a
call raises, `none` where it succeeds. -/
structure PutBehavior where
  clientErr : Option String
  sendErr : Option String

/-- Observable trace events of one run: the file read, the configuration
check, each Cognito SDK call (with the `Logins` key it passes), the
cache-file write attempt, and the `put_metric_data` call. -/
inductive Ev
  | fileRead
  | configLoad
  | initiateAuth
  | getId (loginsKey : String)
  | getCredentialsForIdentity (loginsKey : String)
  | fileWrite
  | publishMetric
deriving DecidableEq, Repr

/-- One CloudWatch metric record as built by `build_metric_data`
(the dict with keys MetricName, Timestamp, Value, Unit); the float value
is modelled as an exact rational since the program never computes with
it, only passes it through. -/
structure MetricDatum where
  MetricName : String
  Timestamp : PyDt
  Value : Rat
  Unit : String
deriving DecidableEq, Repr

/-- A successful `put_metric_data` submission: the namespace and the
MetricData list passed to CloudWatch. -/
structure Published where
  cwNamespace : String
  metricData : List MetricDatum

/-- Configuration record from src/config.py, one field per required
environment variable. -/
structure Config where
  email : String
  password : String
  user_pool_id : String
  identity_pool_id : String
  client_id : String
  region : String
  cw_namespace : String
  vol : String

/-- Model of `os.getenv` over an explicit environment mapping. -/
def lookupEnv (env : List (String × String)) (k : String) : Option String :=
  match env with
  | [] => none
  | (k0, v) :: rest => if k0 = k then some v else lookupEnv rest k

/-- Attribute names (in `__dict__` insertion order) whose environment
variable is missing, as gathered by `Config.__init__` lines 50-52. -/
def Config.missingVars (env : List (String × String)) : List String :=
  (([("email", lookupEnv env "EMAIL"), ("password", lookupEnv env "PASSWORD"),
     ("user_pool_id", lookupEnv env "USER_POOL_ID"),
     ("identity_pool_id", lookupEnv env "IDENTITY_POOL_ID"),
     ("client_id", lookupEnv env "CLIENT_ID"), ("region", lookupEnv env "REGION"),
     ("cw_namespace", lookupEnv env "CW_NAMESPACE"),
     ("vol", lookupEnv env "VOL")].filter (fun p => p.2 = none)).map Prod.fst)

/-- Translation of `Config.__init__` (src/config.py lines 41-52): read
the eight environment variables, raise `ValueError` naming the missing
attributes if any is absent. -/
def Config.init (env : List (String × String)) : Except PyError Config :=
  match lookupEnv env "EMAIL", lookupEnv env "PASSWORD", lookupEnv env "USER_POOL_ID",
        lookupEnv env "IDENTITY_POOL_ID", lookupEnv env "CLIENT_ID", lookupEnv env "REGION",
        lookupEnv env "CW_NAMESPACE", lookupEnv env "VOL" with
  | some e, some p, some u, some i, some c, some r, some n, some v =>
      .ok { email := e, password := p, user_pool_id := u, identity_pool_id := i,
            client_id := c, region := r, cw_namespace := n, vol := v }
  | _, _, _, _, _, _, _, _ =>
      .error (.valueError ("Missing environment variables: "
        ++ String.intercalate ", " (Config.missingVars env)))

/-- Translation of `get_disk_usage` (lines 44-54): the psutil response
for the configured volume, wrapped in `GetDiskUsageError` on failure. -/
def get_disk_usage (psutilResp : Except String Rat) : Except PyError Rat :=
  match psutilResp with
  | .ok v => .ok v
  | .error m => .error (.getDiskUsageError ("Failed to retrieve disk usage: " ++ m))

/-- Translation of `build_metric_data` (lines 57-81): the CloudWatch
metric dict, with `datetime.now(pytz.UTC)` modelled by the clock instant
`tNow` at which the dict is built. -/
def build_metric_data (metric_name : String) (value : Rat) (unit : String)
    (tNow : Int) : MetricDatum :=
  { MetricName := metric_name, Timestamp := .aware tNow 0,
    Value := value, Unit := unit }

/-- Translation of `put_metrics` (lines 84-125): create the CloudWatch
client, invoke the metric collector, build the metric dict (reading the
clock at `tNow`), and submit a one-element MetricData list. The returned
event list records whether `put_metric_data` was actually called. -/
def put_metrics (_aws_access_key_id _aws_secret_access_key _aws_session_token : JVal)
    (metric_collector : Except PyError Rat) (cw_namespace : String)
    (_region_name : String) (tNow : Int) (pb : PutBehavior) :
    List Ev × Except PyError Published :=
  match pb.clientErr with
  | some m => ([], .error (.createCognitoclientError
      ("Failed to create CloudWatch client: " ++ m)))
  | none =>
    match metric_collector with
    | .error e => ([], .error e)
    | .ok v =>
      let metric_data := build_metric_data metric_name_disk_usage v UNIT_PERCENT tNow
      match pb.sendErr with
      | some m => ([Ev.publishMetric], .error (.sendMetricError ("Failed to send metric: " ++ m)))
      | none => ([Ev.publishMetric], .ok { cwNamespace := cw_namespace, metricData := [metric_data] })

/-- Body of the `try` block of `get_cognito_credentials` (lines 151-178),
threading the trace of SDK calls: `initiate_auth`, extraction of the id
token, `get_id` and `get_credentials_for_identity` (both with `Logins`
key `key`), then assembly of the returned dict with the expiration
normalized to UTC and serialized with `isoformat`. -/
def get_cognito_credentials_body (key : String) (be : CognitoBackend) :
    List Ev × Except PyError JVal :=
  match be.initAuthResp with
  | .error m => ([Ev.initiateAuth], .error (.clientError m))
  | .ok resp =>
    match resp.getItem KEY_AUTH_RESULTS with
    | .error e => ([Ev.initiateAuth], .error e)
    | .ok ar =>
      match ar.getItem KEY_ID_TOKEN with
      | .error e => ([Ev.initiateAuth], .error e)
      | .ok _id_token =>
        match be.getIdResp with
        | .error m => ([Ev.initiateAuth, Ev.getId key], .error (.clientError m))
        | .ok idResp =>
          match idResp.getItem KEY_IDENTITY_ID with
          | .error e => ([Ev.initiateAuth, Ev.getId key], .error e)
          | .ok _identity_id =>
            match be.getCredsResp with
            | .error m =>
                ([Ev.initiateAuth, Ev.getId key, Ev.getCredentialsForIdentity key],
                 .error (.clientError m))
            | .ok credsResp =>
                ([Ev.initiateAuth, Ev.getId key, Ev.getCredentialsForIdentity key],
                 do
                   let creds ← credsResp.getItem KEY_CREDENTIALS
                   let expVal ← creds.getItem EXPIRATION
                   let expiration_dt ← astimezoneUtc expVal be.localOffsetMin
                   let akid ← creds.getItem ACCESS_KEY_ID
                   let sk ← creds.getItem SECRET_KEY
                   let st ← creds.getItem SESSION_TOKEN
                   pure (JVal.obj [(ACCESS_KEY_ID, akid), (SECRET_KEY, sk),
                                   (SESSION_TOKEN, st),
                                   (EXPIRATION, .jstr (isoformat expiration_dt))]))

/-- Translation of `get_cognito_credentials` (lines 128-180): both SDK
calls use the `Logins` key `COGNITO_PROVIDER + user_pool_id`, and any
exception in the body is re-raised as `CognitoCredentialError` wrapping
the original message. -/
def get_cognito_credentials (_email _password user_pool_id : String)
    (_identity_pool_id _client_id _region : String) (be : CognitoBackend) :
    List Ev × Except PyError JVal :=
  let r := get_cognito_credentials_body (COGNITO_PROVIDER ++ user_pool_id) be
  (r.1,
   match r.2 with
   | .ok v => .ok v
   | .error e => .error (.cognitoCredentialError
       ("Failed to get Cognito credentials: " ++ errStr e)))

/-- Translation of `save_credentials` (lines 183-200): write the dict as
JSON to the credentials file, raising `SaveCredentialsError` when the
OS write fails or `json.dump` rejects the value; the pair is (raised
outcome, cache-file state after the call). -/
def save_credentials (creds : JVal) (wb : WriteBehavior) :
    Except PyError Unit × FileState :=
  if serializable creds then
    if wb.ok then (.ok (), .valid creds)
    else (.error (.saveCredentialsError ("Failed to save new credentials: " ++ wb.errMsg)),
          wb.residue)
  else (.error (.saveCredentialsError
          "Failed to save new credentials: Object of type datetime is not JSON serializable"),
        wb.residue)

/-- Body of the `try` block of `load_credentials` (lines 204-210): open
and parse the file, read the Expiration field, parse it, compare with
`now_utc`, and return the dict when strictly earlier, else fall through
to `None`. -/
def load_credentials_body (now_utc : PyDt) (fs : FileState) :
    Except PyError (Option JVal) := do
  let creds ← json_load fs
  let expiration_str ← creds.getItem EXPIRATION
  let expiration_dt ← fromisoformat expiration_str
  let lt ← now_utc.pyLt expiration_dt
  if lt then return (some creds) else return none

/-- The exception classes of the `except` clause at line 211:
FileNotFoundError, json.JSONDecodeError, KeyError, ValueError. Any other
exception (notably TypeError) propagates out of `load_credentials`. -/
def caughtByLoad : PyError → Bool
  | .fileNotFound => true
  | .jsonDecodeError => true
  | .keyError _ => true
  | .valueError _ => true
  | _ => false

/-- Translation of `load_credentials` (lines 203-213): the body with the
listed exceptions normalized to `None`. -/
def load_credentials (now_utc : PyDt) (fs : FileState) :
    Except PyError (Option JVal) :=
  match load_credentials_body now_utc fs with
  | .ok r => .ok r
  | .error e => if caughtByLoad e then .ok none else .error e

/-- The whole external world one run executes against: the clock at
`main` entry and at metric build time, the cache-file state, the
environment, and the behaviour of Cognito, psutil, CloudWatch and the
file write. -/
structure World where
  nowStart : Int
  tBuild : Int
  file : FileState
  env : List (String × String)
  cognito : CognitoBackend
  disk : Except String Rat
  put : PutBehavior
  write : WriteBehavior

/-- Result of one run: the ordered trace of observable events, the
cache-file state afterwards, and the outcome (the published submission,
or the uncaught exception that terminated the run). -/
structure RunResult where
  trace : List Ev
  fileAfter : FileState
  outcome : Except PyError Published

/-- The cache-hit branch of `main` (lines 227-235): extract the three
key fields from the loaded dict (an uncaught KeyError if absent) and
call `put_metrics`; the cache file is not touched. -/
def mainHit (w : World) (config : Config) (creds : JVal) : RunResult :=
  match (do
      let a ← creds.getItem ACCESS_KEY_ID
      let s ← creds.getItem SECRET_KEY
      let t ← creds.getItem SESSION_TOKEN
      pure (a, s, t) : Except PyError (JVal × JVal × JVal)) with
  | .error e => ⟨[Ev.fileRead, Ev.configLoad], w.file, .error e⟩
  | .ok (a, s, t) =>
    ⟨[Ev.fileRead, Ev.configLoad]
       ++ (put_metrics a s t (get_disk_usage w.disk) config.cw_namespace
             config.region w.tBuild w.put).1,
     w.file,
     (put_metrics a s t (get_disk_usage w.disk) config.cw_namespace
        config.region w.tBuild w.put).2⟩

/-- The cache-miss branch of `main` (lines 236-257): federate, save the
fresh credentials (an uncaught SaveCredentialsError aborts before any
publish), then extract the key fields and call `put_metrics`. -/
def mainMiss (w : World) (config : Config) : RunResult :=
  match (get_cognito_credentials config.email config.password config.user_pool_id
      config.identity_pool_id config.client_id config.region w.cognito).2 with
  | .error e =>
      ⟨[Ev.fileRead, Ev.configLoad]
         ++ (get_cognito_credentials config.email config.password config.user_pool_id
               config.identity_pool_id config.client_id config.region w.cognito).1,
       w.file, .error e⟩
  | .ok creds =>
    match (save_credentials creds w.write).1 with
    | .error e =>
        ⟨[Ev.fileRead, Ev.configLoad]
           ++ (get_cognito_credentials config.email config.password config.user_pool_id
                 config.identity_pool_id config.client_id config.region w.cognito).1
           ++ [Ev.fileWrite],
         (save_credentials creds w.write).2, .error e⟩
    | .ok _ =>
      match (do
          let a ← creds.getItem ACCESS_KEY_ID
          let s ← creds.getItem SECRET_KEY
          let t ← creds.getItem SESSION_TOKEN
          pure (a, s, t) : Except PyError (JVal × JVal × JVal)) with
      | .error e =>
          ⟨[Ev.fileRead, Ev.configLoad]
             ++ (get_cognito_credentials config.email config.password config.user_pool_id
                   config.identity_pool_id config.client_id config.region w.cognito).1
             ++ [Ev.fileWrite],
           (save_credentials creds w.write).2, .error e⟩
      | .ok (a, s, t) =>
          ⟨[Ev.fileRead, Ev.configLoad]
             ++ (get_cognito_credentials config.email config.password config.user_pool_id
                   config.identity_pool_id config.client_id config.region w.cognito).1
             ++ [Ev.fileWrite]
             ++ (put_metrics a s t (get_disk_usage w.disk) config.cw_namespace
                   config.region w.tBuild w.put).1,
           (save_credentials creds w.write).2,
           (put_metrics a s t (get_disk_usage w.disk) config.cw_namespace
              config.region w.tBuild w.put).2⟩

/-- Translation of `main` (lines 216-257): read the clock, attempt the
cached-credential load (before the configuration is constructed), build
the `Config` (an uncaught ValueError if a variable is missing), then
take the cache-hit or cache-miss branch. -/
def main (w : World) : RunResult :=
  match load_credentials (PyDt.aware w.nowStart 0) w.file with
  | .error e => ⟨[Ev.fileRead], w.file, .error e⟩
  | .ok credsOpt =>
    match Config.init w.env with
    | .error e => ⟨[Ev.fileRead, Ev.configLoad], w.file, .error e⟩
    | .ok config =>
      match credsOpt with
      | some creds => mainHit w config creds
      | none => mainMiss w config

/-- Whether an event is one of the three federation SDK calls made by
`get_cognito_credentials`. -/
def Ev.isFederationCall : Ev → Bool
  | .initiateAuth => true
  | .getId _ => true
  | .getCredentialsForIdentity _ => true
  | _ => false

/-- A well-formed stored credential record: the four fields of the cache
file, with the expiration held as the aware instant (and display offset)
its ISO-8601 string denotes. -/
structure CredRecord where
  accessKeyId : PyStr
  secretKey : PyStr
  sessionToken : PyStr
  expInstant : Int
  expOffsetMin : Int

/-- The JSON dict a `CredRecord` is stored as. -/
def CredRecord.toJson (r : CredRecord) : JVal :=
  .obj [(ACCESS_KEY_ID, .jstr r.accessKeyId), (SECRET_KEY, .jstr r.secretKey),
        (SESSION_TOKEN, .jstr r.sessionToken),
        (EXPIRATION, .jstr (.iso r.expInstant r.expOffsetMin))]

/-- Loading a well-formed stored record compares the current aware
instant against the record's expiration instant and returns the record
exactly when strictly earlier. -/
theorem load_credentials_valid_record (r : CredRecord) (t : Int) :
    load_credentials (PyDt.aware t 0) (.valid r.toJson)
      = .ok (if t < r.expInstant then some r.toJson else none) := by
  have hbody : load_credentials_body (PyDt.aware t 0) (.valid r.toJson)
      = .ok (if t < r.expInstant then some r.toJson else none) := by
    simp only [load_credentials_body, json_load, CredRecord.toJson, JVal.getItem,
      getFromFields, fromisoformat, PyDt.pyLt, EXPIRATION, ACCESS_KEY_ID, SECRET_KEY,
      SESSION_TOKEN, Except.bind, bind]
    by_cases h : t < r.expInstant <;> simp [h, CredRecord.toJson, pure, Except.pure]
  simp [load_credentials, hbody]

/-- Every event put_metrics emits is the put_metric_data call itself. -/
theorem put_metrics_events (a s t : JVal) (mc : Except PyError Rat) (ns rg : String)
    (tn : Int) (pb : PutBehavior) :
    ∀ e ∈ (put_metrics a s t mc ns rg tn pb).1, e = Ev.publishMetric := by
  rcases pb with ⟨ce, se⟩
  cases ce <;> cases mc <;> cases se <;> simp [put_metrics]

/-- Every event the federation body emits is one of the three Cognito
SDK calls, the two Logins-bearing ones carrying the key it was given. -/
theorem fed_body_events (key : String) (be : CognitoBackend) :
    ∀ e ∈ (get_cognito_credentials_body key be).1,
      e = Ev.initiateAuth ∨ e = Ev.getId key ∨ e = Ev.getCredentialsForIdentity key := by
  unfold get_cognito_credentials_body
  repeat' split
  all_goals simp

/-- The federation body always attempts `initiate_auth` first. -/
theorem fed_body_starts_auth (key : String) (be : CognitoBackend) :
    ∃ l, (get_cognito_credentials_body key be).1 = Ev.initiateAuth :: l := by
  unfold get_cognito_credentials_body
  repeat' split
  all_goals exact ⟨_, rfl⟩

/-- The trace of `get_cognito_credentials` is that of its body, with the
Logins key fixed to `COGNITO_PROVIDER ++ user_pool_id`. -/
theorem fed_trace_eq (email pw upid ipid cid region : String) (be : CognitoBackend) :
    (get_cognito_credentials email pw upid ipid cid region be).1
      = (get_cognito_credentials_body (COGNITO_PROVIDER ++ upid) be).1 := rfl

/-- Trace decomposition of the cache-miss branch: the file read, the
config check, the federation calls, then only write/publish events. -/
theorem mainMiss_trace (w : World) (config : Config) :
    ∃ rest, (mainMiss w config).trace
      = [Ev.fileRead, Ev.configLoad]
        ++ (get_cognito_credentials config.email config.password config.user_pool_id
             config.identity_pool_id config.client_id config.region w.cognito).1 ++ rest
      ∧ ∀ e ∈ rest, e = Ev.fileWrite ∨ e = Ev.publishMetric := by
  unfold mainMiss
  split
  · exact ⟨[], by simp⟩
  · split
    · exact ⟨[Ev.fileWrite], by simp⟩
    · split
      · exact ⟨[Ev.fileWrite], by simp⟩
      · rename_i creds _ _ _ a s t _
        refine ⟨Ev.fileWrite :: (put_metrics a s t (get_disk_usage w.disk)
          config.cw_namespace config.region w.tBuild w.put).1, by simp, ?_⟩
        intro e he
        rcases List.mem_cons.mp he with h | h
        · exact Or.inl h
        · exact Or.inr (put_metrics_events _ _ _ _ _ _ _ _ e h)

/-- Frame facts of the cache-hit branch: the cache file is untouched and
the only events are the file read, the config check and the publish. -/
theorem mainHit_frame (w : World) (config : Config) (creds : JVal) :
    (mainHit w config creds).fileAfter = w.file
    ∧ ∀ e ∈ (mainHit w config creds).trace,
        e = Ev.fileRead ∨ e = Ev.configLoad ∨ e = Ev.publishMetric := by
  unfold mainHit
  split
  · simp
  next a s t _ =>
    refine ⟨rfl, ?_⟩
    intro e he
    simp only [RunResult.mk.injEq, List.mem_append, List.mem_cons,
      List.mem_singleton, List.not_mem_nil] at he
    rcases he with (h | h | h) | h
    · exact Or.inl h
    · exact Or.inr (Or.inl h)
    · exact absurd h (by simp)
    · exact Or.inr (Or.inr (put_metrics_events _ _ _ _ _ _ _ _ e h))

/-- C1: for every stored credential record R and every UTC-aware instant
T, the credential-resolution path returns R unmodified without any
federation call iff T is strictly earlier than R's expiration; at the
expiration instant or later, load_credentials returns absent and main
triggers a fresh federation exchange. There is no grace window. -/
theorem c1_expiry_boundary (r : CredRecord) (w : World) (cfg : Config)
    (hf : w.file = .valid r.toJson) (hc : Config.init w.env = .ok cfg) :
    (load_credentials (PyDt.aware w.nowStart 0) w.file = .ok (some r.toJson)
        ↔ w.nowStart < r.expInstant)
    ∧ (w.nowStart < r.expInstant →
        ∀ e ∈ (main w).trace, e.isFederationCall = false)
    ∧ (r.expInstant ≤ w.nowStart →
        load_credentials (PyDt.aware w.nowStart 0) w.file = .ok none
        ∧ Ev.initiateAuth ∈ (main w).trace) := by
  have hload : load_credentials (PyDt.aware w.nowStart 0) w.file
      = .ok (if w.nowStart < r.expInstant then some r.toJson else none) := by
    rw [hf]; exact load_credentials_valid_record r w.nowStart
  refine ⟨?_, ?_, ?_⟩
  · rw [hload]
    by_cases h : w.nowStart < r.expInstant <;> simp [h]
  · intro h e he
    rw [show main w = mainHit w cfg r.toJson by
          simp [main, hload, if_pos h, hc]] at he
    rcases (mainHit_frame w cfg r.toJson).2 e he with h1 | h1 | h1 <;>
      simp [h1, Ev.isFederationCall]
  · intro h
    have hnone : load_credentials (PyDt.aware w.nowStart 0) w.file
        = .ok none := by
      rw [hload, if_neg (not_lt.mpr h)]
    refine ⟨hnone, ?_⟩
    rw [show main w = mainMiss w cfg by simp [main, hnone, hc]]
    obtain ⟨rest, htr, _⟩ := mainMiss_trace w cfg
    rw [htr, fed_trace_eq]
    obtain ⟨l, hl⟩ := fed_body_starts_auth (COGNITO_PROVIDER ++ cfg.user_pool_id) w.cognito
    rw [hl]
    simp

/-- Concrete fixtures for the witnesses: a complete environment, its
configuration, and a sample stored record expiring at instant 100. -/
def fullEnv : List (String × String) :=
  [("EMAIL", "user"), ("PASSWORD", "pw"), ("USER_POOL_ID", "pool"),
   ("IDENTITY_POOL_ID", "ipool"), ("CLIENT_ID", "cli"), ("REGION", "eu-west-1"),
   ("CW_NAMESPACE", "ns"), ("VOL", "/")]

/-- The configuration `Config.init fullEnv` constructs. -/
def cfg0 : Config :=
  { email := "user", password := "pw", user_pool_id := "pool",
    identity_pool_id := "ipool", client_id := "cli", region := "eu-west-1",
    cw_namespace := "ns", vol := "/" }

/-- A sample well-formed stored record, expiring at instant 100 UTC. -/
def rec0 : CredRecord :=
  { accessKeyId := .plain "AKIA", secretKey := .plain "sec",
    sessionToken := .plain "tok", expInstant := 100, expOffsetMin := 0 }

/-- A Cognito backend whose three calls all fail (never consulted on the
fast path; makes federation visible in miss-path witnesses). -/
def failingBackend : CognitoBackend :=
  { initAuthResp := .error "auth down", getIdResp := .error "id down",
    getCredsResp := .error "creds down", localOffsetMin := 0 }

/-- A world at instant 0 holding `rec0` (not yet expired), with a full
environment and benign collaborators. -/
def w1 : World :=
  { nowStart := 0, tBuild := 1, file := .valid rec0.toJson, env := fullEnv,
    cognito := failingBackend, disk := .ok 57, put := ⟨none, none⟩,
    write := ⟨true, .absent, "disk full"⟩ }

/-- Witness for C1, at the concrete world `w1` (instant 0, expiry 100). -/
theorem c1_expiry_boundary_witness :
    (load_credentials (PyDt.aware (0 : Int) 0) w1.file = .ok (some rec0.toJson)
        ↔ (0 : Int) < 100)
    ∧ ((0 : Int) < 100 → ∀ e ∈ (main w1).trace, e.isFederationCall = false) := by
  have h := c1_expiry_boundary rec0 w1 cfg0 rfl rfl
  exact ⟨h.1, h.2.1⟩

/-- C10: on every cache hit (load_credentials returns a stored record),
main performs no save_credentials write and no federation call, and the
cache file is left unchanged by the run. -/
theorem c10_fast_path_frame (w : World) (creds : JVal)
    (h : load_credentials (PyDt.aware w.nowStart 0) w.file = .ok (some creds)) :
    (main w).fileAfter = w.file
    ∧ ∀ e ∈ (main w).trace, e.isFederationCall = false ∧ e ≠ Ev.fileWrite := by
  rw [show main w = match Config.init w.env with
      | .error e => ⟨[Ev.fileRead, Ev.configLoad], w.file, .error e⟩
      | .ok config => mainHit w config creds by simp [main, h]]
  split
  · constructor
    · rfl
    · intro e he
      simp only [List.mem_cons, List.not_mem_nil, or_false] at he
      rcases he with h1 | h1 <;> simp [h1, Ev.isFederationCall]
  next config _ =>
    refine ⟨(mainHit_frame w config creds).1, ?_⟩
    intro e he
    rcases (mainHit_frame w config creds).2 e he with h1 | h1 | h1 <;>
      simp [h1, Ev.isFederationCall]

/-- Witness for C10 at the concrete world `w1`. -/
theorem c10_fast_path_frame_witness :
    (main w1).fileAfter = w1.file ∧ Ev.fileWrite ∉ (main w1).trace := by
  have h := c10_fast_path_frame w1 rec0.toJson rfl
  exact ⟨h.1, fun hmem => (h.2 Ev.fileWrite hmem).2 rfl⟩

/-- A world with a complete environment whose cache file holds the
JSON array `[]` (valid JSON, not an object). -/
def w2 : World :=
  { nowStart := 0, tBuild := 1, file := .valid (.arr []), env := fullEnv,
    cognito := failingBackend, disk := .ok 57, put := ⟨none, none⟩,
    write := ⟨true, .absent, "disk full"⟩ }

/-- C2 (code bug): load_credentials is NOT transparent for every possible
file content. A cache file holding the JSON array `[]`, or an object
whose Expiration is a parseable but offset-naive timestamp, raises an
uncaught TypeError (the except clause at line 211 lists only
FileNotFoundError, JSONDecodeError, KeyError and ValueError), and the
run dies with it instead of falling back to federation. -/
theorem c2_typeerror_escapes :
    load_credentials (PyDt.aware 0 0) (.valid (.arr []))
      = .error (.typeError "list indices must be integers or slices, not str")
    ∧ load_credentials (PyDt.aware 0 0)
        (.valid (.obj [(EXPIRATION, .jstr (.isoNaive 99))]))
      = .error (.typeError "cannot compare offset-naive and offset-aware datetimes")
    ∧ (main w2).outcome
      = .error (.typeError "list indices must be integers or slices, not str")
    ∧ (main w2).trace = [Ev.fileRead] :=
  ⟨rfl, rfl, rfl, rfl⟩

/-- A world with an empty environment whose cache file holds the valid,
unexpired record `rec0`. -/
def w3 : World :=
  { nowStart := 0, tBuild := 1, file := .valid rec0.toJson, env := [],
    cognito := failingBackend, disk := .ok 57, put := ⟨none, none⟩,
    write := ⟨true, .absent, "disk full"⟩ }

/-- C3 counterexample: with every environment variable absent, the run
does fail with the configuration ValueError, but only AFTER the
credential cache file has been read — the trace opens with the file
read, refuting "before the credential cache file is read". -/
theorem c3_counterexample :
    (main w3).trace = [Ev.fileRead, Ev.configLoad]
    ∧ (main w3).outcome = .error (.valueError
        ("Missing environment variables: email, password, user_pool_id, "
          ++ "identity_pool_id, client_id, region, cw_namespace, vol")) :=
  ⟨rfl, rfl⟩

/-- C3 (amended): if any required environment variable is absent and the
cache-file read completes without raising, the run fails with the
configuration error before any federation, persistence or publish step —
but after the credential cache file has been read. -/
theorem c3_config_error_after_cache_read (w : World) (lr : Option JVal) (e : PyError)
    (hload : load_credentials (PyDt.aware w.nowStart 0) w.file = .ok lr)
    (hcfg : Config.init w.env = .error e) :
    (main w).trace = [Ev.fileRead, Ev.configLoad]
    ∧ (main w).outcome = .error e
    ∧ (main w).fileAfter = w.file := by
  simp [main, hload, hcfg]

/-- Witness for the amended C3 at the concrete world `w3`. -/
theorem c3_config_error_after_cache_read_witness :
    (main w3).outcome = .error (.valueError
        ("Missing environment variables: email, password, user_pool_id, "
          ++ "identity_pool_id, client_id, region, cw_namespace, vol"))
    ∧ (main w3).fileAfter = w3.file := by
  have h := c3_config_error_after_cache_read w3 (some rec0.toJson)
    (.valueError ("Missing environment variables: email, password, user_pool_id, "
      ++ "identity_pool_id, client_id, region, cw_namespace, vol")) rfl rfl
  exact ⟨h.2.1, h.2.2⟩

/-- C4: if the password-authentication step fails, no get_id and no
get_credentials_for_identity call is attempted (the trace holds only the
initiate_auth attempt), the whole federation aborts with the single
CognitoCredentialError classification, and the reported message embeds
the authentication-stage failure. -/
theorem c4_auth_failure_aborts (email pw upid ipid cid region m : String)
    (be : CognitoBackend) (h : be.initAuthResp = .error m) :
    (get_cognito_credentials email pw upid ipid cid region be).1 = [Ev.initiateAuth]
    ∧ (get_cognito_credentials email pw upid ipid cid region be).2
        = .error (.cognitoCredentialError
            ("Failed to get Cognito credentials: " ++ m)) := by
  simp [get_cognito_credentials, get_cognito_credentials_body, h, errStr]

/-- Witness for C4 with a backend whose initiate_auth raises. -/
theorem c4_auth_failure_aborts_witness :
    (get_cognito_credentials "e" "p" "pool" "i" "c" "r" failingBackend).1
      = [Ev.initiateAuth]
    ∧ (get_cognito_credentials "e" "p" "pool" "i" "c" "r" failingBackend).2
        = .error (.cognitoCredentialError
            "Failed to get Cognito credentials: auth down") :=
  c4_auth_failure_aborts "e" "p" "pool" "i" "c" "r" "auth down" failingBackend rfl

/-- C5: in every run that reaches federation and obtains fresh
credentials, a failing cache write surfaces as the run's outcome — an
uncaught SaveCredentialsError — and put_metric_data is never called, so
the metric is not published with the fresh credentials. -/
theorem c5_persistence_failure_fatal (w : World) (cfg : Config) (creds : JVal)
    (e : PyError)
    (hload : load_credentials (PyDt.aware w.nowStart 0) w.file = .ok none)
    (hcfg : Config.init w.env = .ok cfg)
    (hfed : (get_cognito_credentials cfg.email cfg.password cfg.user_pool_id
        cfg.identity_pool_id cfg.client_id cfg.region w.cognito).2 = .ok creds)
    (hsave : (save_credentials creds w.write).1 = .error e) :
    (main w).outcome = .error e
    ∧ (∃ msg, e = .saveCredentialsError msg)
    ∧ Ev.publishMetric ∉ (main w).trace := by
  have hm : main w = mainMiss w cfg := by simp [main, hload, hcfg]
  have hmiss : mainMiss w cfg
      = ⟨[Ev.fileRead, Ev.configLoad]
           ++ (get_cognito_credentials cfg.email cfg.password cfg.user_pool_id
                 cfg.identity_pool_id cfg.client_id cfg.region w.cognito).1
           ++ [Ev.fileWrite],
         (save_credentials creds w.write).2, .error e⟩ := by
    simp only [mainMiss, hfed, hsave]
  refine ⟨by rw [hm, hmiss], ?_, ?_⟩
  · unfold save_credentials at hsave
    by_cases h1 : serializable creds <;> by_cases h2 : w.write.ok <;>
      simp [h1, h2] at hsave <;> exact ⟨_, hsave.symm⟩
  · rw [hm, hmiss]
    intro hmem
    simp at hmem
    rw [fed_trace_eq] at hmem
    rcases fed_body_events _ _ _ hmem with h1 | h1 | h1 <;> exact Ev.noConfusion h1

/-- A Cognito backend whose three calls succeed with well-shaped
responses: the given id token, identity handle, and Credentials fields. -/
def okBackend (idToken identityId : JVal) (credsFields : List (String × JVal))
    (localOff : Int) : CognitoBackend :=
  { initAuthResp := .ok (.obj [(KEY_AUTH_RESULTS, .obj [(KEY_ID_TOKEN, idToken)])]),
    getIdResp := .ok (.obj [(KEY_IDENTITY_ID, identityId)]),
    getCredsResp := .ok (.obj [(KEY_CREDENTIALS, .obj credsFields)]),
    localOffsetMin := localOff }

/-- A world on the cache-miss path (no cache file) whose federation
succeeds and whose cache write fails with an OS error. -/
def w4 : World :=
  { nowStart := 0, tBuild := 1, file := .absent, env := fullEnv,
    cognito := okBackend (.jstr (.plain "tok")) (.jstr (.plain "id"))
      [(ACCESS_KEY_ID, .jstr (.plain "AK")), (SECRET_KEY, .jstr (.plain "SK")),
       (SESSION_TOKEN, .jstr (.plain "ST")), (EXPIRATION, .jdt (.aware 100 120))] 0,
    disk := .ok 57, put := ⟨none, none⟩,
    write := ⟨false, .invalid "partial", "disk full"⟩ }

/-- Witness for C5 at the concrete world `w4`. -/
theorem c5_persistence_failure_fatal_witness :
    (main w4).outcome
      = .error (.saveCredentialsError "Failed to save new credentials: disk full")
    ∧ Ev.publishMetric ∉ (main w4).trace := by
  have h := c5_persistence_failure_fatal w4 cfg0
    (.obj [(ACCESS_KEY_ID, .jstr (.plain "AK")), (SECRET_KEY, .jstr (.plain "SK")),
           (SESSION_TOKEN, .jstr (.plain "ST")), (EXPIRATION, .jstr (.iso 100 0))])
    (.saveCredentialsError "Failed to save new credentials: disk full")
    rfl rfl rfl rfl
  exact ⟨h.1, h.2.2⟩

/-- C6: saving a federation-produced record (four fields, UTC-normalized
ISO expiration) and loading it back at any instant strictly before its
expiration returns a record equal in all four fields, the expiration
string preserved exactly (hence to at least second precision). -/
theorem c6_round_trip (r : CredRecord) (_hoff : r.expOffsetMin = 0) (t : Int)
    (ht : t < r.expInstant) (wb : WriteBehavior) (hwb : wb.ok = true) :
    (save_credentials r.toJson wb).1 = .ok ()
    ∧ load_credentials (PyDt.aware t 0) (save_credentials r.toJson wb).2
        = .ok (some r.toJson) := by
  have hser : serializable r.toJson = true := by
    simp [CredRecord.toJson, serializable, serializableFields]
  have hs : save_credentials r.toJson wb = (.ok (), .valid r.toJson) := by
    simp [save_credentials, hser, hwb]
  rw [hs]
  exact ⟨rfl, by rw [load_credentials_valid_record, if_pos ht]⟩

/-- Witness for C6 with the record `rec0` and a succeeding write. -/
theorem c6_round_trip_witness :
    (save_credentials rec0.toJson ⟨true, .absent, "m"⟩).1 = .ok ()
    ∧ load_credentials (PyDt.aware (0 : Int) 0)
        (save_credentials rec0.toJson ⟨true, .absent, "m"⟩).2
        = .ok (some rec0.toJson) :=
  c6_round_trip rec0 rfl 0 (by decide) ⟨true, .absent, "m"⟩ rfl

/-- C7: whatever the timezone offset of the expiration datetime returned
by get_credentials_for_identity, the record get_cognito_credentials
returns stores that instant converted to UTC (offset zero) and
serialized as an ISO-8601 string. -/
theorem c7_utc_normalization (email pw upid ipid cid region : String)
    (idToken identityId ak sk st : JVal) (i off localOff : Int) :
    (get_cognito_credentials email pw upid ipid cid region
      (okBackend idToken identityId
        [(ACCESS_KEY_ID, ak), (SECRET_KEY, sk), (SESSION_TOKEN, st),
         (EXPIRATION, .jdt (.aware i off))] localOff)).2
    = .ok (.obj [(ACCESS_KEY_ID, ak), (SECRET_KEY, sk), (SESSION_TOKEN, st),
                 (EXPIRATION, .jstr (.iso i 0))]) := by
  simp [get_cognito_credentials, get_cognito_credentials_body, okBackend,
    JVal.getItem, getFromFields, astimezoneUtc, isoformat, KEY_AUTH_RESULTS,
    KEY_ID_TOKEN, KEY_IDENTITY_ID, KEY_CREDENTIALS, EXPIRATION, ACCESS_KEY_ID,
    SECRET_KEY, SESSION_TOKEN, Except.bind, bind, pure, Except.pure]

/-- C8: every Logins key passed to get_id or get_credentials_for_identity
is the fixed provider prefix concatenated with the user-pool id — the
same key in both calls, and independent of the configured region (which
is universally quantified and absent from the conclusion). -/
theorem c8_logins_key (email pw upid ipid cid region : String)
    (be : CognitoBackend) (k : String) :
    COGNITO_PROVIDER = "cognito-idp.us-west-2.amazonaws.com/"
    ∧ (Ev.getId k ∈ (get_cognito_credentials email pw upid ipid cid region be).1
        → k = COGNITO_PROVIDER ++ upid)
    ∧ (Ev.getCredentialsForIdentity k
          ∈ (get_cognito_credentials email pw upid ipid cid region be).1
        → k = COGNITO_PROVIDER ++ upid) := by
  refine ⟨rfl, ?_, ?_⟩ <;> intro hmem <;> rw [fed_trace_eq] at hmem
  · rcases fed_body_events _ _ _ hmem with h | h | h <;> simp at h
    exact h
  · rcases fed_body_events _ _ _ hmem with h | h | h <;> simp at h
    exact h

/-- The successful backend used by the C8 witness. -/
def be0 : CognitoBackend :=
  okBackend (.jstr (.plain "tok")) (.jstr (.plain "id"))
    [(ACCESS_KEY_ID, .jstr (.plain "AK")), (SECRET_KEY, .jstr (.plain "SK")),
     (SESSION_TOKEN, .jstr (.plain "ST")), (EXPIRATION, .jdt (.aware 100 0))] 0

/-- Witness for C8: in a run whose trace does contain the get_id call,
its Logins key is the fixed prefix plus the pool id. -/
theorem c8_logins_key_witness :
    ("cognito-idp.us-west-2.amazonaws.com/pool" : String)
      = COGNITO_PROVIDER ++ "pool" :=
  (c8_logins_key "e" "p" "pool" "i" "c" "r" be0
    "cognito-idp.us-west-2.amazonaws.com/pool").2.1 (by decide)

/-- C9: publishing a collected disk-usage value v performs exactly one
put_metric_data call carrying exactly one metric record, with name
DiskUsage, value v, unit Percent, and a UTC timestamp read during the
execution window of the call. -/
theorem c9_metric_shape (a s t : JVal) (v : Rat) (ns rg : String)
    (tStart tNow tEnd : Int) (pb : PutBehavior)
    (hc : pb.clientErr = none) (hs : pb.sendErr = none)
    (h1 : tStart ≤ tNow) (h2 : tNow ≤ tEnd) :
    (put_metrics a s t (get_disk_usage (.ok v)) ns rg tNow pb).1
      = [Ev.publishMetric]
    ∧ (put_metrics a s t (get_disk_usage (.ok v)) ns rg tNow pb).2
        = .ok { cwNamespace := ns,
                metricData := [{ MetricName := metric_name_disk_usage,
                                 Timestamp := .aware tNow 0, Value := v,
                                 Unit := UNIT_PERCENT }] }
    ∧ metric_name_disk_usage = "DiskUsage" ∧ UNIT_PERCENT = "Percent"
    ∧ tStart ≤ tNow ∧ tNow ≤ tEnd := by
  refine ⟨?_, ?_, rfl, rfl, h1, h2⟩ <;>
    simp [put_metrics, hc, hs, get_disk_usage, build_metric_data]

/-- Witness for C9, collecting the value 57.3 at instant 1 inside the
window from 0 to 2. -/
theorem c9_metric_shape_witness :
    (put_metrics .jnull .jnull .jnull (get_disk_usage (.ok ((573 : Rat)/10)))
        "ns" "r" 1 ⟨none, none⟩).2
      = .ok { cwNamespace := "ns",
              metricData := [{ MetricName := "DiskUsage",
                               Timestamp := .aware 1 0, Value := (573 : Rat)/10,
                               Unit := "Percent" }] }
    ∧ (0 : Int) ≤ 1 ∧ (1 : Int) ≤ 2 := by
  have h := c9_metric_shape .jnull .jnull .jnull ((573 : Rat)/10) "ns" "r" 0 1 2
    ⟨none, none⟩ rfl rfl (by decide) (by decide)
  exact ⟨h.2.1, h.2.2.2.2⟩
